import Mathlib

/-!
Verification of the medical-history frontend's document viewer and
token-refresh interceptor, shallowly embedded from the TypeScript source
(`src/frontend/src/services/api.ts` and the DocumentViewer component).
-/

namespace Api

/-- Stored bearer tokens, as kept in durable client storage
(localStorage keys access_token / refresh_token). -/
structure TokenStore where
  access : Option String
  refresh : Option String
deriving DecidableEq

/-- Outcome of sending one HTTP request: a fulfilled response body, an error
response carrying a status code, or a network error with no response. -/
inductive HttpOutcome where
  | ok (body : String)
  | errStatus (status : Nat) (tag : String)
  | netErr (tag : String)
deriving DecidableEq

/-- Outcome of the POST /auth/refresh call: new token pair on success,
an error value on failure. -/
inductive RefreshOutcome where
  | ok (accessToken refreshToken : String)
  | err (tag : String)
deriving DecidableEq

/-- Environment describing how the network answers the calls the
interceptor may make: the refresh endpoint's outcome and the outcome of
re-issuing the original request. -/
structure ApiEnv where
  refreshOutcome : RefreshOutcome
  retryOutcome : HttpOutcome
deriving DecidableEq

/-- What the original caller of the request observes. -/
inductive CallerResult where
  | fulfilled (body : String)
  | rejectedStatus (status : Nat) (tag : String)
  | rejectedNet (tag : String)
  | rejectedRefresh (tag : String)
deriving DecidableEq

/-- Aggregate result of running the response interceptor: final token store,
any forced navigation (window.location.href), how many times the refresh
endpoint was called, and what the caller sees. -/
structure InterceptResult where
  store : TokenStore
  location : Option String
  refreshCalls : Nat
  result : CallerResult
deriving DecidableEq

/-- The response interceptor of api.ts (lines 80-115), applied to the outcome
of one request. `retried` is the per-request _retry flag. On a 401 with the
flag unset the flag is set, and if a refresh token is stored the refresh
endpoint is called: on success the new tokens are stored and the original
request is re-issued through the same pipeline (the recursive call, now with
the flag set); on failure both tokens are cleared, navigation to /login is
forced, and the refresh error is propagated. In every other case the
outcome is passed through (response returned, error rejected). -/
def interceptResponse (retried : Bool) (res : HttpOutcome) (store : TokenStore)
    (env : ApiEnv) : InterceptResult :=
  match res with
  | .ok body => ⟨store, none, 0, .fulfilled body⟩
  | .netErr tag => ⟨store, none, 0, .rejectedNet tag⟩
  | .errStatus status tag =>
    if _h : status = 401 ∧ retried = false then
      match store.refresh with
      | none => ⟨store, none, 0, .rejectedStatus status tag⟩
      | some _ =>
        match env.refreshOutcome with
        | .ok newAccess newRefresh =>
          let store2 : TokenStore := ⟨some newAccess, some newRefresh⟩
          let inner := interceptResponse true env.retryOutcome store2 env
          { inner with refreshCalls := inner.refreshCalls + 1 }
        | .err rtag => ⟨⟨none, none⟩, some ("/login"), 1, .rejectedRefresh rtag⟩
    else ⟨store, none, 0, .rejectedStatus status tag⟩
termination_by (if retried then 0 else 1)
decreasing_by simp_all

end Api

namespace Api

/-- C1: a 401 on a not-yet-retried request triggers exactly one refresh; when
the refresh succeeds and the re-issued request fails with 401 again, the set
_retry flag prevents a second refresh and the second 401 is rejected to the
caller; moreover no run of the interceptor ever makes more than one refresh
call. -/
theorem refresh_at_most_once (store : TokenStore) (env : ApiEnv)
    (rt tag tag2 a b : String)
    (hr : store.refresh = some rt)
    (henv : env.refreshOutcome = .ok a b)
    (hretry : env.retryOutcome = .errStatus 401 tag2) :
    (interceptResponse false (.errStatus 401 tag) store env).refreshCalls = 1 ∧
    (interceptResponse false (.errStatus 401 tag) store env).result =
      .rejectedStatus 401 tag2 ∧
    ∀ (retried : Bool) (res : HttpOutcome) (st : TokenStore) (e : ApiEnv),
      (interceptResponse retried res st e).refreshCalls ≤ 1 := by
  refine ⟨?_, ?_, ?_⟩
  · rw [interceptResponse]
    simp [hr, henv, hretry, interceptResponse]
  · rw [interceptResponse]
    simp [hr, henv, hretry, interceptResponse]
  · intro retried res st e
    have hret : ∀ (r2 : HttpOutcome) (st2 : TokenStore) (e2 : ApiEnv),
        (interceptResponse true r2 st2 e2).refreshCalls = 0 := by
      intro r2 st2 e2
      rw [interceptResponse.eq_def]
      cases r2 with
      | ok body => simp
      | netErr t => simp
      | errStatus s2 t2 => simp
    cases retried with
    | true => simp [hret]
    | false =>
      rw [interceptResponse.eq_def]
      cases res with
      | ok body => simp
      | netErr t => simp
      | errStatus s t =>
        by_cases hs : s = 401
        · subst hs
          cases hrf : st.refresh with
          | none => simp [hrf]
          | some r =>
            cases ho : e.refreshOutcome with
            | ok na nr => simp [hrf, ho, hret]
            | err rt2 => simp [hrf, ho]
        · simp [hs]

/-- Closed witness for refresh_at_most_once at a concrete store and
environment. -/
theorem refresh_at_most_once_witness :
    (interceptResponse false (.errStatus 401 ("first"))
      ⟨some ("acc"), some ("ref")⟩
      ⟨.ok ("na") ("nr"), .errStatus 401 ("second")⟩).refreshCalls = 1 ∧
    (interceptResponse false (.errStatus 401 ("first"))
      ⟨some ("acc"), some ("ref")⟩
      ⟨.ok ("na") ("nr"), .errStatus 401 ("second")⟩).result =
      .rejectedStatus 401 ("second") := by
  have h := refresh_at_most_once ⟨some ("acc"), some ("ref")⟩
    ⟨.ok ("na") ("nr"), .errStatus 401 ("second")⟩
    ("ref") ("first") ("second") ("na") ("nr") rfl rfl rfl
  exact ⟨h.1, h.2.1⟩

/-- C5: when the refresh call itself fails, both stored tokens are cleared,
the app is navigated to /login, and the caller receives the refresh error
(not the original 401). -/
theorem refresh_failure_clears_and_redirects (store : TokenStore) (env : ApiEnv)
    (rt tag etag : String)
    (hr : store.refresh = some rt)
    (henv : env.refreshOutcome = .err etag) :
    (interceptResponse false (.errStatus 401 tag) store env).store =
      ⟨none, none⟩ ∧
    (interceptResponse false (.errStatus 401 tag) store env).location =
      some ("/login") ∧
    (interceptResponse false (.errStatus 401 tag) store env).result =
      .rejectedRefresh etag := by
  rw [interceptResponse]
  simp [hr, henv]

/-- Closed witness for refresh_failure_clears_and_redirects at a concrete
store and environment. -/
theorem refresh_failure_clears_and_redirects_witness :
    (interceptResponse false (.errStatus 401 ("first"))
      ⟨some ("acc"), some ("ref")⟩
      ⟨.err ("refresh-down"), .ok ("unused")⟩).store = ⟨none, none⟩ ∧
    (interceptResponse false (.errStatus 401 ("first"))
      ⟨some ("acc"), some ("ref")⟩
      ⟨.err ("refresh-down"), .ok ("unused")⟩).location = some ("/login") := by
  have h := refresh_failure_clears_and_redirects
    ⟨some ("acc"), some ("ref")⟩ ⟨.err ("refresh-down"), .ok ("unused")⟩
    ("ref") ("first") ("refresh-down") rfl rfl
  exact ⟨h.1, h.2.1⟩

end Api

namespace Viewer

/-- File kind of the viewed document (the fileType prop). -/
inductive FileKind where
  | pdf
  | image
deriving DecidableEq

/-- Keyboard keys the DocumentViewer keydown handler distinguishes. -/
inductive Key where
  | escape
  | plus
  | equalsSign
  | minus
  | zero
  | arrowLeft
  | arrowRight
  | other
deriving DecidableEq

/-- The DocumentViewer component state (its useState hooks plus the isOpen
and fileType props). hasPdfDocument models whether a decoded pdfDocument
handle is held (non-null). -/
structure ViewerState where
  isOpen : Bool
  fileType : FileKind
  zoom : ℚ
  posX : ℚ
  posY : ℚ
  isDragging : Bool
  dragStartX : ℚ
  dragStartY : ℚ
  isFullscreen : Bool
  pdfPage : Nat
  pdfTotalPages : Nat
  hasPdfDocument : Bool
  pageImageUrl : Option String
  isLoading : Bool
  error : Option String
  lastPinchDistance : Option ℚ
deriving DecidableEq

/-- handleZoomIn: setZoom(prev => Math.min(prev + 0.25, 5)). -/
def handleZoomIn (s : ViewerState) : ViewerState :=
  { s with zoom := min (s.zoom + 1/4) 5 }

/-- handleZoomOut: setZoom(prev => Math.max(prev - 0.25, 0.25)). -/
def handleZoomOut (s : ViewerState) : ViewerState :=
  { s with zoom := max (s.zoom - 1/4) (1/4) }

/-- handleResetZoom: setZoom(1); setPosition(0,0). -/
def handleResetZoom (s : ViewerState) : ViewerState :=
  { s with zoom := 1, posX := 0, posY := 0 }

/-- The keydown handler (part_001 lines 174-206). The Bool result records
whether onClose was invoked. -/
def handleKeyDown (s : ViewerState) (k : Key) : ViewerState × Bool :=
  if s.isOpen = false then (s, false)
  else
    match k with
    | .escape =>
      if s.isFullscreen = true then ({ s with isFullscreen := false }, false)
      else (s, true)
    | .plus => (handleZoomIn s, false)
    | .equalsSign => (handleZoomIn s, false)
    | .minus => (handleZoomOut s, false)
    | .zero => (handleResetZoom s, false)
    | .arrowLeft =>
      if s.fileType = .pdf ∧ 1 < s.pdfPage then
        ({ s with pdfPage := s.pdfPage - 1 }, false)
      else (s, false)
    | .arrowRight =>
      if s.fileType = .pdf ∧ s.pdfPage < s.pdfTotalPages then
        ({ s with pdfPage := s.pdfPage + 1 }, false)
      else (s, false)
    | .other => (s, false)

/-- handleWheel (part_001 lines 213-219): with ctrl/meta held, a positive
deltaY maps to delta -0.1 and any other deltaY to +0.1, and zoom is set to
Math.min(Math.max(0.25, prev + delta), 5); otherwise nothing happens. -/
def handleWheel (s : ViewerState) (ctrlOrMeta : Bool) (deltaY : ℚ) : ViewerState :=
  if ctrlOrMeta = true then
    let delta : ℚ := if 0 < deltaY then -(1/10) else 1/10
    { s with zoom := min (max (1/4) (s.zoom + delta)) 5 }
  else s

/-- handleMouseDown: start dragging only when zoom > 1. -/
def handleMouseDown (s : ViewerState) (clientX clientY : ℚ) : ViewerState :=
  if 1 < s.zoom then
    { s with
      isDragging := true,
      dragStartX := clientX - s.posX,
      dragStartY := clientY - s.posY }
  else s

/-- handleMouseMove: pan while dragging and zoom > 1. -/
def handleMouseMove (s : ViewerState) (clientX clientY : ℚ) : ViewerState :=
  if s.isDragging = true ∧ 1 < s.zoom then
    { s with posX := clientX - s.dragStartX, posY := clientY - s.dragStartY }
  else s

/-- handleMouseUp: stop dragging. -/
def handleMouseUp (s : ViewerState) : ViewerState :=
  { s with isDragging := false }

/-- handleTouchStart: start a single-touch drag when zoom > 1. -/
def handleTouchStart (s : ViewerState) (touchCount : Nat) (clientX clientY : ℚ) :
    ViewerState :=
  if 1 < s.zoom ∧ touchCount = 1 then
    { s with
      isDragging := true,
      dragStartX := clientX - s.posX,
      dragStartY := clientY - s.posY }
  else s

/-- handleTouchMove: single-touch pan while dragging and zoom > 1. -/
def handleTouchMove (s : ViewerState) (touchCount : Nat) (clientX clientY : ℚ) :
    ViewerState :=
  if s.isDragging = true ∧ 1 < s.zoom ∧ touchCount = 1 then
    { s with posX := clientX - s.dragStartX, posY := clientY - s.dragStartY }
  else s

/-- handleTouchEnd: stop dragging. -/
def handleTouchEnd (s : ViewerState) : ViewerState :=
  { s with isDragging := false }

/-- handleTouchMoveZoom (part_001 lines 269-286). The source computes
pinchDistance as Math.hypot of the first two touch points, a quantity that
is irrational in general, so the event supplies the computed distance
(together with the first touch's client coordinates, consumed by the
single-touch pan path). -/
def handleTouchMoveZoom (s : ViewerState) (touchCount : Nat)
    (pinchDistance clientX clientY : ℚ) : ViewerState :=
  if touchCount = 2 then
    let s2 :=
      match s.lastPinchDistance with
      | some lastDist =>
        { s with
          zoom := min (max (1/4) (s.zoom + (pinchDistance - lastDist) * (1/100))) 5 }
      | none => s
    { s2 with lastPinchDistance := some pinchDistance }
  else handleTouchMove s touchCount clientX clientY

/-- handleTouchEndZoom: setLastPinchDistance(null) then handleTouchEnd(). -/
def handleTouchEndZoom (s : ViewerState) : ViewerState :=
  handleTouchEnd { s with lastPinchDistance := none }

/-- toggleFullscreen: setIsFullscreen(!isFullscreen). -/
def toggleFullscreen (s : ViewerState) : ViewerState :=
  { s with isFullscreen := !s.isFullscreen }

/-- The reset-on-open effect (part_001 lines 152-162), run when the viewer is
opened (keyed on isOpen and fileUrl): setZoom(1), setPosition(0,0),
setPdfPage(1), setError(null), setPageImageUrl(null), setPdfDocument(null). -/
def resetOnOpen (s : ViewerState) : ViewerState :=
  { s with
    zoom := 1,
    posX := 0,
    posY := 0,
    pdfPage := 1,
    error := none,
    pageImageUrl := none,
    hasPdfDocument := false }

/-- Click on the previous-page button (part_001 lines 479-485): rendered only
for PDFs with more than one page, disabled when pdfPage <= 1 or loading,
onClick setPdfPage(p => Math.max(1, p - 1)). -/
def clickPrevPage (s : ViewerState) : ViewerState :=
  if s.fileType = .pdf ∧ 1 < s.pdfTotalPages ∧
      ¬(s.pdfPage ≤ 1 ∨ s.isLoading = true) then
    { s with pdfPage := max 1 (s.pdfPage - 1) }
  else s

/-- Click on the next-page button (part_001 lines 489-495): rendered only for
PDFs with more than one page, disabled when pdfPage >= pdfTotalPages or
loading, onClick setPdfPage(p => Math.min(pdfTotalPages, p + 1)). -/
def clickNextPage (s : ViewerState) : ViewerState :=
  if s.fileType = .pdf ∧ 1 < s.pdfTotalPages ∧
      ¬(s.pdfTotalPages ≤ s.pdfPage ∨ s.isLoading = true) then
    { s with pdfPage := min s.pdfTotalPages (s.pdfPage + 1) }
  else s

/-- One user-interaction event on the open viewer. -/
inductive VEvent where
  | keyDown (k : Key)
  | wheel (ctrlOrMeta : Bool) (deltaY : ℚ)
  | mouseDown (x y : ℚ)
  | mouseMove (x y : ℚ)
  | mouseUp
  | touchStart (touchCount : Nat) (x y : ℚ)
  | touchMove (touchCount : Nat) (pinchDistance x y : ℚ)
  | touchEnd
  | zoomInButton
  | zoomOutButton
  | fullscreenButton
  | prevPageButton
  | nextPageButton
  | openReset
deriving DecidableEq

/-- Dispatch of one event to the corresponding handler; the Bool records
whether onClose was invoked. -/
def viewerStep (s : ViewerState) (e : VEvent) : ViewerState × Bool :=
  match e with
  | .keyDown k => handleKeyDown s k
  | .wheel c d => (handleWheel s c d, false)
  | .mouseDown x y => (handleMouseDown s x y, false)
  | .mouseMove x y => (handleMouseMove s x y, false)
  | .mouseUp => (handleMouseUp s, false)
  | .touchStart n x y => (handleTouchStart s n x y, false)
  | .touchMove n d x y => (handleTouchMoveZoom s n d x y, false)
  | .touchEnd => (handleTouchEndZoom s, false)
  | .zoomInButton => (handleZoomIn s, false)
  | .zoomOutButton => (handleZoomOut s, false)
  | .fullscreenButton => (toggleFullscreen s, false)
  | .prevPageButton => (clickPrevPage s, false)
  | .nextPageButton => (clickNextPage s, false)
  | .openReset => (resetOnOpen s, false)

/-- Fold a sequence of events over the state. -/
def applyEvents (s : ViewerState) (evs : List VEvent) : ViewerState :=
  evs.foldl (fun st e => (viewerStep st e).1) s

/-- The useState defaults of DocumentViewer, for an open viewer of the given
file kind. -/
def initialState (kind : FileKind) : ViewerState :=
  { isOpen := true, fileType := kind, zoom := 1, posX := 0, posY := 0,
    isDragging := false, dragStartX := 0, dragStartY := 0,
    isFullscreen := false, pdfPage := 1, pdfTotalPages := 1,
    hasPdfDocument := false, pageImageUrl := none, isLoading := false,
    error := none, lastPinchDistance := none }

/-- The zoom value lies in the clamping domain. -/
def zoomInRange (s : ViewerState) : Prop :=
  1/4 ≤ s.zoom ∧ s.zoom ≤ 5

end Viewer

namespace Viewer

/-- A both-sides clamped value lies in the zoom domain. -/
lemma clamp_mem (z : ℚ) :
    1/4 ≤ min (max (1/4) z) 5 ∧ min (max (1/4) z) 5 ≤ 5 :=
  ⟨le_min (le_max_left _ _) (by norm_num), min_le_right _ _⟩

lemma zoomInRange_handleZoomIn (s : ViewerState) (h : zoomInRange s) :
    zoomInRange (handleZoomIn s) := by
  obtain ⟨h1, h2⟩ := h
  exact ⟨le_min (by linarith) (by norm_num), min_le_right _ _⟩

lemma zoomInRange_handleZoomOut (s : ViewerState) (h : zoomInRange s) :
    zoomInRange (handleZoomOut s) := by
  obtain ⟨h1, h2⟩ := h
  exact ⟨le_max_right _ _, max_le (by linarith) (by norm_num)⟩

lemma zoomInRange_handleResetZoom (s : ViewerState) :
    zoomInRange (handleResetZoom s) := by
  constructor <;> norm_num [handleResetZoom, zoomInRange]

lemma zoomInRange_handleKeyDown (s : ViewerState) (k : Key) (h : zoomInRange s) :
    zoomInRange (handleKeyDown s k).1 := by
  cases k with
  | escape =>
    simp only [handleKeyDown]
    split
    · exact h
    · split <;> exact h
  | plus =>
    simp only [handleKeyDown]
    split
    · exact h
    · exact zoomInRange_handleZoomIn s h
  | equalsSign =>
    simp only [handleKeyDown]
    split
    · exact h
    · exact zoomInRange_handleZoomIn s h
  | minus =>
    simp only [handleKeyDown]
    split
    · exact h
    · exact zoomInRange_handleZoomOut s h
  | zero =>
    simp only [handleKeyDown]
    split
    · exact h
    · exact zoomInRange_handleResetZoom s
  | arrowLeft =>
    simp only [handleKeyDown]
    split
    · exact h
    · split <;> exact h
  | arrowRight =>
    simp only [handleKeyDown]
    split
    · exact h
    · split <;> exact h
  | other =>
    simp only [handleKeyDown]
    split <;> exact h

lemma zoomInRange_handleWheel (s : ViewerState) (c : Bool) (d : ℚ)
    (h : zoomInRange s) : zoomInRange (handleWheel s c d) := by
  unfold handleWheel
  split
  · exact clamp_mem _
  · exact h

lemma zoomInRange_handleTouchMove (s : ViewerState) (n : Nat) (x y : ℚ)
    (h : zoomInRange s) : zoomInRange (handleTouchMove s n x y) := by
  unfold handleTouchMove
  split <;> exact h

lemma zoomInRange_handleTouchMoveZoom (s : ViewerState) (n : Nat) (d x y : ℚ)
    (h : zoomInRange s) : zoomInRange (handleTouchMoveZoom s n d x y) := by
  unfold handleTouchMoveZoom
  split
  · cases hl : s.lastPinchDistance with
    | none => simp only [hl]; exact h
    | some lastDist => simp only [hl]; exact clamp_mem _
  · exact zoomInRange_handleTouchMove s n x y h

lemma zoomInRange_viewerStep (s : ViewerState) (e : VEvent) (h : zoomInRange s) :
    zoomInRange (viewerStep s e).1 := by
  cases e with
  | keyDown k => exact zoomInRange_handleKeyDown s k h
  | wheel c d => exact zoomInRange_handleWheel s c d h
  | mouseDown x y =>
    show zoomInRange (handleMouseDown s x y)
    unfold handleMouseDown
    split <;> exact h
  | mouseMove x y =>
    show zoomInRange (handleMouseMove s x y)
    unfold handleMouseMove
    split <;> exact h
  | mouseUp => exact h
  | touchStart n x y =>
    show zoomInRange (handleTouchStart s n x y)
    unfold handleTouchStart
    split <;> exact h
  | touchMove n d x y => exact zoomInRange_handleTouchMoveZoom s n d x y h
  | touchEnd => exact h
  | zoomInButton => exact zoomInRange_handleZoomIn s h
  | zoomOutButton => exact zoomInRange_handleZoomOut s h
  | fullscreenButton => exact h
  | prevPageButton =>
    show zoomInRange (clickPrevPage s)
    unfold clickPrevPage
    split <;> exact h
  | nextPageButton =>
    show zoomInRange (clickNextPage s)
    unfold clickNextPage
    split <;> exact h
  | openReset =>
    show zoomInRange (resetOnOpen s)
    constructor <;> norm_num [resetOnOpen]

lemma zoomInRange_applyEvents (evs : List VEvent) (s : ViewerState)
    (h : zoomInRange s) : zoomInRange (applyEvents s evs) := by
  induction evs generalizing s with
  | nil => exact h
  | cons e rest ih => exact ih _ (zoomInRange_viewerStep s e h)

end Viewer

namespace Viewer

/-- C2: starting from the default zoom 1.0, after any sequence of viewer
events (zoom buttons and keys with step 0.25, ctrl/meta wheel with step 0.1,
two-touch pinch with delta (distance - lastDistance) * 0.01, reset, and all
other interactions) the zoom lies in [0.25, 5.0]. -/
theorem zoom_always_in_domain (kind : FileKind) (evs : List VEvent) :
    1/4 ≤ (applyEvents (initialState kind) evs).zoom ∧
    (applyEvents (initialState kind) evs).zoom ≤ 5 := by
  refine zoomInRange_applyEvents evs (initialState kind) ?_
  constructor <;> norm_num [initialState, zoomInRange]

end Viewer

namespace Viewer

/-- A session state as it can look when the viewer is reopened: fullscreen
was left on, a 7-page document had been loaded, and a load is in flight. -/
def reopenProbe : ViewerState :=
  { initialState .pdf with
    isFullscreen := true,
    pdfTotalPages := 7,
    isLoading := true }

/-- C3 counterexample: the reset-on-open effect leaves isFullscreen true,
pdfTotalPages at its old value 7, and the loading flag set, so not every
mutable field is reset to its default on (re)open. -/
theorem reset_on_open_counterexample :
    (resetOnOpen reopenProbe).isFullscreen = true ∧
    (resetOnOpen reopenProbe).pdfTotalPages = 7 ∧
    (resetOnOpen reopenProbe).isLoading = true :=
  ⟨rfl, rfl, rfl⟩

/-- C3 amended: on (re)open the effect resets zoom to 1, position to (0, 0),
currentPage to 1, clears the error, and drops the page image and the decoded
document, while pdfTotalPages, isFullscreen and the loading flag keep their
previous values. -/
theorem reset_on_open_resets_view_state (s : ViewerState) :
    (resetOnOpen s).zoom = 1 ∧
    (resetOnOpen s).posX = 0 ∧
    (resetOnOpen s).posY = 0 ∧
    (resetOnOpen s).pdfPage = 1 ∧
    (resetOnOpen s).error = none ∧
    (resetOnOpen s).pageImageUrl = none ∧
    (resetOnOpen s).hasPdfDocument = false ∧
    (resetOnOpen s).pdfTotalPages = s.pdfTotalPages ∧
    (resetOnOpen s).isFullscreen = s.isFullscreen ∧
    (resetOnOpen s).isLoading = s.isLoading :=
  ⟨rfl, rfl, rfl, rfl, rfl, rfl, rfl, rfl, rfl, rfl⟩

/-- A 3-page PDF session on page 1 with a load in progress. -/
def loadingPdfProbe : ViewerState :=
  { initialState .pdf with
    pdfTotalPages := 3,
    isLoading := true }

/-- C4 counterexample: with loading in progress, pressing ArrowRight still
advances the page from 1 to 2 (the keydown handler has no isLoading
check), so arrow navigation is not ignored while loading. -/
theorem arrow_during_loading_counterexample :
    loadingPdfProbe.isLoading = true ∧
    (handleKeyDown loadingPdfProbe Key.arrowRight).1.pdfPage = 2 := by
  constructor
  · rfl
  · rfl

/-- C4 amended: for an open PDF viewer, ArrowLeft and ArrowRight move
currentPage by exactly one, a press at the boundary is ignored, and the
page stays in [1, totalPages] — independently of the loading flag (only the
on-screen page buttons are disabled while loading). -/
theorem arrow_key_navigation (s : ViewerState)
    (hopen : s.isOpen = true) (hpdf : s.fileType = .pdf)
    (hlo : 1 ≤ s.pdfPage) (hhi : s.pdfPage ≤ s.pdfTotalPages) :
    ((handleKeyDown s .arrowLeft).1.pdfPage =
      if 1 < s.pdfPage then s.pdfPage - 1 else s.pdfPage) ∧
    ((handleKeyDown s .arrowRight).1.pdfPage =
      if s.pdfPage < s.pdfTotalPages then s.pdfPage + 1 else s.pdfPage) ∧
    1 ≤ (handleKeyDown s .arrowLeft).1.pdfPage ∧
    (handleKeyDown s .arrowLeft).1.pdfPage ≤ s.pdfTotalPages ∧
    1 ≤ (handleKeyDown s .arrowRight).1.pdfPage ∧
    (handleKeyDown s .arrowRight).1.pdfPage ≤ s.pdfTotalPages := by
  simp only [handleKeyDown, hopen, hpdf]
  norm_num
  by_cases h1 : 1 < s.pdfPage <;> by_cases h2 : s.pdfPage < s.pdfTotalPages <;>
    simp [h1, h2] <;> omega

/-- Closed witness for arrow_key_navigation on a 3-page document at page 2. -/
theorem arrow_key_navigation_witness :
    (handleKeyDown { initialState .pdf with pdfTotalPages := 3, pdfPage := 2 }
      Key.arrowLeft).1.pdfPage = 1 ∧
    (handleKeyDown { initialState .pdf with pdfTotalPages := 3, pdfPage := 2 }
      Key.arrowRight).1.pdfPage = 3 := by
  have h := arrow_key_navigation
    { initialState .pdf with pdfTotalPages := 3, pdfPage := 2 }
    rfl rfl (by decide) (by decide)
  constructor
  · rw [h.1]; decide
  · rw [h.2.1]; decide

/-- C6: pressing Escape while fullscreen turns fullscreen off without
invoking onClose (the viewer stays open); pressing Escape again, now with
fullscreen off, invokes onClose. -/
theorem escape_exits_fullscreen_before_close (s : ViewerState)
    (hopen : s.isOpen = true) (hfs : s.isFullscreen = true) :
    (handleKeyDown s .escape).2 = false ∧
    (handleKeyDown s .escape).1.isFullscreen = false ∧
    (handleKeyDown s .escape).1.isOpen = true ∧
    (handleKeyDown (handleKeyDown s .escape).1 .escape).2 = true := by
  simp [handleKeyDown, hopen, hfs]

/-- Closed witness for escape_exits_fullscreen_before_close on a fullscreen
session. -/
theorem escape_exits_fullscreen_before_close_witness :
    (handleKeyDown { initialState .pdf with isFullscreen := true }
      Key.escape).2 = false ∧
    (handleKeyDown (handleKeyDown { initialState .pdf with isFullscreen := true }
      Key.escape).1 Key.escape).2 = true := by
  have h := escape_exits_fullscreen_before_close
    { initialState .pdf with isFullscreen := true } rfl rfl
  exact ⟨h.1, h.2.2.2⟩

end Viewer

namespace Viewer

/-- C7: with ctrl or meta held, a strictly positive wheel delta sets zoom to
the clamp of zoom - 0.1 and a strictly negative delta to the clamp of
zoom + 0.1, each clamped to [0.25, 5]; without the modifier the wheel event
leaves the state (in particular zoom) unchanged. -/
theorem wheel_zoom_steps (s : ViewerState) (d : ℚ) :
    (0 < d → (handleWheel s true d).zoom = min (max (1/4) (s.zoom - 1/10)) 5) ∧
    (d < 0 → (handleWheel s true d).zoom = min (max (1/4) (s.zoom + 1/10)) 5) ∧
    handleWheel s false d = s := by
  refine ⟨?_, ?_, ?_⟩
  · intro hd
    simp [handleWheel, hd, sub_eq_add_neg]
  · intro hd
    have hnd : ¬(0 < d) := by linarith
    simp [handleWheel, hnd]
  · simp [handleWheel]

/-- Closed witness for wheel_zoom_steps: deltas +120 and -120 from the
default state, and an unmodified wheel event. -/
theorem wheel_zoom_steps_witness :
    (handleWheel (initialState .pdf) true 120).zoom =
      min (max (1/4) ((initialState .pdf).zoom - 1/10)) 5 ∧
    (handleWheel (initialState .pdf) true (-120)).zoom =
      min (max (1/4) ((initialState .pdf).zoom + 1/10)) 5 ∧
    handleWheel (initialState .pdf) false 120 = initialState .pdf := by
  refine ⟨?_, ?_, ?_⟩
  · exact (wheel_zoom_steps (initialState .pdf) 120).1 (by norm_num)
  · exact (wheel_zoom_steps (initialState .pdf) (-120)).2.1 (by norm_num)
  · exact (wheel_zoom_steps (initialState .pdf) 120).2.2

/-- C8: any touch end clears the pinch baseline, and the first two-touch
move after it applies no zoom change (whatever distance had been recorded
before the fingers were lifted) while recording the new distance as the
fresh baseline. -/
theorem pinch_baseline_reset (s : ViewerState) (d x y : ℚ) :
    (handleTouchEndZoom s).lastPinchDistance = none ∧
    (handleTouchMoveZoom (handleTouchEndZoom s) 2 d x y).zoom =
      (handleTouchEndZoom s).zoom ∧
    (handleTouchMoveZoom (handleTouchEndZoom s) 2 d x y).lastPinchDistance =
      some d := by
  refine ⟨rfl, ?_, ?_⟩ <;>
    simp [handleTouchMoveZoom, handleTouchEndZoom, handleTouchEnd]

/-- C10: a ctrl/meta wheel event whose deltaY is exactly 0 takes the
zoom-in branch: for any in-domain zoom the result is min (zoom + 0.1) 5,
which is a strict increase whenever zoom is below the ceiling. -/
theorem wheel_zero_delta_zooms_in (s : ViewerState) (h : 1/4 ≤ s.zoom) :
    (handleWheel s true 0).zoom = min (s.zoom + 1/10) 5 ∧
    (s.zoom + 1/10 ≤ 5 → s.zoom < (handleWheel s true 0).zoom) := by
  have hz : (handleWheel s true 0).zoom = min (max (1/4) (s.zoom + 1/10)) 5 := by
    simp [handleWheel]
  rw [hz, max_eq_right (by linarith)]
  refine ⟨rfl, ?_⟩
  intro hle
  rw [min_eq_left hle]
  linarith

/-- Closed witness for wheel_zero_delta_zooms_in at the default state. -/
theorem wheel_zero_delta_zooms_in_witness :
    (handleWheel (initialState .pdf) true 0).zoom =
      min ((initialState .pdf).zoom + 1/10) 5 ∧
    (initialState .pdf).zoom < (handleWheel (initialState .pdf) true 0).zoom := by
  have h := wheel_zero_delta_zooms_in (initialState .pdf) (by norm_num [initialState])
  exact ⟨h.1, h.2 (by norm_num [initialState])⟩

end Viewer

namespace Renderer

/-- JS truthiness fallback for containerRef.current?.clientWidth || 800:
both a missing container and a zero measurement fall back. -/
def containerDim (measured : Option ℚ) (fallback : ℚ) : ℚ :=
  match measured with
  | some w => if w = 0 then fallback else w
  | none => fallback

/-- The renderPage scale computation (part_001 lines 97-108): the natural
page size comes from the scale-1 viewport, the container dimensions default
to 800 x 600, the base scale fits the page into 90% of the container while
preserving aspect ratio, and the render scale doubles it. -/
def renderScale (clientWidth clientHeight : Option ℚ) (pageW pageH : ℚ) : ℚ :=
  let containerWidth := containerDim clientWidth 800
  let containerHeight := containerDim clientHeight 600
  let scaleX := containerWidth / pageW
  let scaleY := containerHeight / pageH
  let baseScale := min scaleX scaleY * (9/10)
  baseScale * 2

/-- C9: for a measured, nonzero viewport the raster scale is exactly the
fit-within-90%-of-viewport scale times the fixed 2x supersampling
multiplier. -/
theorem renderScale_fit_times_two (vw vh pw ph : ℚ)
    (hw : vw ≠ 0) (hh : vh ≠ 0) :
    renderScale (some vw) (some vh) pw ph =
      min (vw / pw) (vh / ph) * (9/10) * 2 := by
  simp [renderScale, containerDim, hw, hh]

/-- Closed witness for renderScale_fit_times_two: a 1000 x 500 viewport and
a 200 x 100 page give render scale 9. -/
theorem renderScale_fit_times_two_witness :
    renderScale (some 1000) (some 500) 200 100 = 9 := by
  rw [renderScale_fit_times_two 1000 500 200 100 (by norm_num) (by norm_num)]
  norm_num
end Renderer
